import Mathlib

/-
  Verification of the fribblequibble backend authentication and authorization
  core against its specification.

  The definitions below are a shallow embedding of the JavaScript source:
    - src/api/server.js           (jwtVerifyStrict, jwtVerifySoft, errorHandler)
    - src/api/util/cookiemanagement.js / tokenedit.js
                                  (createAccessToken, setAccessToken, setRefreshToken)
    - src/api/util/validation.js  (validateUsername, validatePassword, validateAccessLevel)
    - src/api/util/routeerror.js  (RouteError)
    - src/api/routes/auth.js      (login, getInfo)
    - user.js                     (removeUser, changeUsername, changeAccessLevel)
    - topic.js                    (addTopic)
    - quibble.js                  (removeQuibble)

  Modelling conventions:
    - JWT signing and verification are modelled symbolically: a signed token
      records the secret it was signed with; verification compares that secret
      with the process secret and checks the embedded expiry against the
      current time (jsonwebtoken treats a token as expired when now is at or
      past the exp instant).  A missing cookie makes jwt.verify throw, which is
      the JwtError.missing case.
    - Machine integers do not overflow in the relevant ranges, so ids and
      instants are Nat and access levels are Int (the DB column is INT).
    - URL parameters arrive as strings in JS and are compared with loose
      equality against numeric ids; they are modelled as already-parsed Nat.
      Body parameter access-level is modelled as Option Int: none models a
      missing field, and the JS falsiness test rejects both none and 0.
    - Environment configuration (process.env) is a record of numeric values.
    - The database connection is modelled by the user table (a list of rows)
      plus a fault flag standing for a query that throws, which in
      createAccessToken is caught and turned into a null return.
    - A thrown plain object (throw in validateAccessLevel) is distinguished
      from RouteError because errorHandler treats them differently.
-/

namespace FribbleQuibble

/-- process.env configuration values used by the auth core.  The concrete
access-level constants are configuration, not source code; the spec fixes the
hierarchy 1=User, 2=Moderator, 3=Admin, 4=Developer, and theorems that depend
on a concrete threshold take it as a hypothesis. -/
structure Env where
  jwtSecret : Nat
  accessTtl : Nat
  refreshTtl : Nat
  cookieExpirySeconds : Nat
  adminLevel : Int
  moderatorLevel : Int
  developerLevel : Int
  usernameMaxLength : Nat
  passwordMinLength : Nat
  passwordMaxLength : Nat
deriving Repr, DecidableEq

/-- Payload of an access token JWT as produced by tokenedit.createAccessToken:
id, username and access_level from the user row, plus the exp instant added by
jwt.sign via the expiresIn option. -/
structure AccessClaim where
  id : Nat
  username : String
  access_level : Int
  exp : Nat
deriving Repr, DecidableEq

/-- Payload of a refresh token JWT as produced by auth.login: the user id plus
the exp instant. -/
structure RefreshClaim where
  id : Nat
  exp : Nat
deriving Repr, DecidableEq

/-- A signed access token: the claim together with the secret used to sign it.
Verification succeeds only when this secret equals the process secret. -/
structure SignedAccess where
  secret : Nat
  claim : AccessClaim
deriving Repr, DecidableEq

/-- A signed refresh token. -/
structure SignedRefresh where
  secret : Nat
  claim : RefreshClaim
deriving Repr, DecidableEq

/-- Failure cases of jwt.verify: missing token (jwt.verify(undefined) throws),
bad signature, or expired claim. -/
inductive JwtError where
  | missing
  | badSignature
  | expired
deriving Repr, DecidableEq

/-- jwt.verify for the access_token cookie slot. -/
def verifyAccessJwt (tok : Option SignedAccess) (secret : Nat) (now : Nat) :
    Except JwtError AccessClaim :=
  match tok with
  | none => .error .missing
  | some t =>
    if t.secret ≠ secret then .error .badSignature
    else if t.claim.exp ≤ now then .error .expired
    else .ok t.claim

/-- jwt.verify for the refresh_token cookie slot. -/
def verifyRefreshJwt (tok : Option SignedRefresh) (secret : Nat) (now : Nat) :
    Except JwtError RefreshClaim :=
  match tok with
  | none => .error .missing
  | some t =>
    if t.secret ≠ secret then .error .badSignature
    else if t.claim.exp ≤ now then .error .expired
    else .ok t.claim

/-- A row of the user table (id, username, password_hash, access_level). -/
structure UserRec where
  id : Nat
  username : String
  password_hash : String
  access_level : Int
deriving Repr, DecidableEq

/-- SELECT ... FROM user WHERE id = ? -/
def lookupById (db : List UserRec) (userId : Nat) : Option UserRec :=
  db.find? (fun u => u.id == userId)

/-- SELECT ... FROM user WHERE username = ? -/
def lookupByUsername (db : List UserRec) (username : String) : Option UserRec :=
  db.find? (fun u => u.username == username)

/-- UPDATE user SET username = ? WHERE id = ? -/
def updateUsername (db : List UserRec) (userId : Nat) (username : String) :
    List UserRec :=
  db.map (fun u => if u.id == userId then { u with username := username } else u)

/-- UPDATE user SET access_level = ? WHERE id = ? -/
def updateLevel (db : List UserRec) (userId : Nat) (level : Int) :
    List UserRec :=
  db.map (fun u => if u.id == userId then { u with access_level := level } else u)

/-- Outcome of tokenedit.createAccessToken.  The source catches query failures
and returns null; when the query succeeds but returns no row, userInfo is
undefined and reading userInfo.id throws a TypeError that propagates to the
caller; otherwise a token signed with the process secret is returned whose exp
is now plus JWT_ACCESS_EXPIRE_TIME. -/
inductive CreateTokenResult where
  | token (c : AccessClaim)
  | nullToken
  | threw
deriving Repr, DecidableEq

/-- tokenedit.createAccessToken.  fault = true models the database query
throwing (caught, null returned). -/
def createAccessToken (env : Env) (fault : Bool) (db : List UserRec)
    (userId : Nat) (now : Nat) : CreateTokenResult :=
  if fault then .nullToken
  else
    match lookupById db userId with
    | none => .threw
    | some u => .token ⟨u.id, u.username, u.access_level, now + env.accessTtl⟩

/-- The two credential cookie slots of an inbound request. -/
structure Request where
  access_token : Option SignedAccess
  refresh_token : Option SignedRefresh
deriving Repr, DecidableEq

/-- Terminal behavior of a middleware run: either next() was reached with an
optional res.locals.userInfo identity, or a rejection response was sent. -/
inductive MwOutcome where
  | next (userInfo : Option AccessClaim)
  | reject (status : Nat) (error : String) (message : String)
deriving Repr, DecidableEq

/-- Observable effects of one middleware run: the terminal outcome, whether
clearCookie was called on both carriers, the access token handed to
setAccessToken (if any), how many user-table lookups ran, how many times the
refresh token was verified, and how many times next() was invoked. -/
structure MwResult where
  outcome : MwOutcome
  cleared : Bool
  setTok : Option AccessClaim
  storeLookups : Nat
  refreshChecks : Nat
  nextCalls : Nat
deriving Repr, DecidableEq

/-- The identity attached to the request by a middleware run, if any. -/
def MwResult.identity (r : MwResult) : Option AccessClaim :=
  match r.outcome with
  | .next i => i
  | .reject _ _ _ => none

/-- The catch block of jwtVerifyStrict: if a refresh_token cookie was present
at all, clear both cookies and send 401 USER_LOGIN_ENDED; otherwise send 401
USER_NOT_LOGGED_IN.  setTok and the counters record effects that already
happened before the failure. -/
def jwtStrictCatch (req : Request) (setTok : Option AccessClaim)
    (lookups checks : Nat) : MwResult :=
  if req.refresh_token.isSome then
    { outcome := .reject 401 "USER_LOGIN_ENDED" "The user login period has ended"
      cleared := true
      setTok := setTok
      storeLookups := lookups
      refreshChecks := checks
      nextCalls := 0 }
  else
    { outcome := .reject 401 "USER_NOT_LOGGED_IN" "The user is not logged-in"
      cleared := false
      setTok := setTok
      storeLookups := lookups
      refreshChecks := checks
      nextCalls := 0 }

/-- server.js jwtVerifyStrict.  Verify the access_token cookie; on success
attach the identity and call next().  Otherwise verify the refresh_token
cookie, look the subject up, mint a fresh access token, hand it to
setAccessToken, re-verify it to obtain res.locals.userInfo, and call next().
Any failure along the renewal path falls into the shared catch block. -/
def jwtVerifyStrict (env : Env) (fault : Bool) (db : List UserRec) (now : Nat)
    (req : Request) : MwResult :=
  match verifyAccessJwt req.access_token env.jwtSecret now with
  | .ok c =>
    { outcome := .next (some c), cleared := false, setTok := none
      storeLookups := 0, refreshChecks := 0, nextCalls := 1 }
  | .error _ =>
    match verifyRefreshJwt req.refresh_token env.jwtSecret now with
    | .error _ => jwtStrictCatch req none 0 1
    | .ok r =>
      match createAccessToken env fault db r.id now with
      | .nullToken => jwtStrictCatch req none 1 1
      | .threw => jwtStrictCatch req none 1 1
      | .token c =>
        match verifyAccessJwt (some ⟨env.jwtSecret, c⟩) env.jwtSecret now with
        | .ok c2 =>
          { outcome := .next (some c2), cleared := false, setTok := some c
            storeLookups := 1, refreshChecks := 1, nextCalls := 1 }
        | .error _ => jwtStrictCatch req (some c) 1 1

/-- server.js jwtVerifySoft.  Same renewal algorithm, but the catch block only
clears the cookies when a refresh_token cookie was present, never sends a
rejection, and next() is always reached exactly once.  A null token from
createAccessToken (database fault) is skipped silently by the if(accessToken)
guard. -/
def jwtVerifySoft (env : Env) (fault : Bool) (db : List UserRec) (now : Nat)
    (req : Request) : MwResult :=
  match verifyAccessJwt req.access_token env.jwtSecret now with
  | .ok c =>
    { outcome := .next (some c), cleared := false, setTok := none
      storeLookups := 0, refreshChecks := 0, nextCalls := 1 }
  | .error _ =>
    match verifyRefreshJwt req.refresh_token env.jwtSecret now with
    | .error _ =>
      { outcome := .next none, cleared := req.refresh_token.isSome
        setTok := none, storeLookups := 0, refreshChecks := 1, nextCalls := 1 }
    | .ok r =>
      match createAccessToken env fault db r.id now with
      | .nullToken =>
        { outcome := .next none, cleared := false, setTok := none
          storeLookups := 1, refreshChecks := 1, nextCalls := 1 }
      | .threw =>
        { outcome := .next none, cleared := req.refresh_token.isSome
          setTok := none, storeLookups := 1, refreshChecks := 1, nextCalls := 1 }
      | .token c =>
        match verifyAccessJwt (some ⟨env.jwtSecret, c⟩) env.jwtSecret now with
        | .ok c2 =>
          { outcome := .next (some c2), cleared := false, setTok := some c
            storeLookups := 1, refreshChecks := 1, nextCalls := 1 }
        | .error _ =>
          { outcome := .next none, cleared := req.refresh_token.isSome
            setTok := some c, storeLookups := 1, refreshChecks := 1
            nextCalls := 1 }

/-- util/routeerror.js RouteError: status, code and message. -/
structure RouteError where
  status : Nat
  code : String
  message : String
deriving Repr, DecidableEq

/-- Anything thrown during route handling: a RouteError, or some other
exception (plain object, TypeError, database error). -/
inductive ThrownError where
  | route (e : RouteError)
  | other
deriving Repr, DecidableEq

/-- The wire response body {error, message} together with the HTTP status. -/
structure WireResponse where
  status : Nat
  error : String
  message : String
deriving Repr, DecidableEq

/-- server.js errorHandler: a RouteError is sent as its own status with body
fields error := code and message := message; anything else becomes a 500. -/
def errorHandler : ThrownError → WireResponse
  | .route e => ⟨e.status, e.code, e.message⟩
  | .other => ⟨500, "INTERNAL_SERVER_ERROR", "Unable to service request"⟩

/-- validation.js validateUsername: reject falsy or over-long usernames. -/
def validateUsername (env : Env) (username : String) :
    Except RouteError Unit :=
  if username = "" then
    .error ⟨400, "NO_USERNAME", "Username not provided"⟩
  else if env.usernameMaxLength < username.length then
    .error ⟨400, "USERNAME_TOO_LONG", "Username too long"⟩
  else .ok ()

/-- validation.js validatePassword: reject falsy, non-ASCII, over-long or
under-long passwords, in that order. -/
def validatePassword (env : Env) (password : String) :
    Except RouteError Unit :=
  if password = "" then
    .error ⟨400, "NO_PASSWORD", "Password not provided"⟩
  else if ¬ password.toList.all (fun ch => ch.toNat ≤ 127) then
    .error ⟨400, "PASSWORD_NOT_ASCII", "Password must only consist of Ascii characters"⟩
  else if env.passwordMaxLength < password.length then
    .error ⟨400, "PASSWORD_TOO_LONG", "Password too long"⟩
  else if password.length < env.passwordMinLength then
    .error ⟨400, "PASSWORD_TOO_SHORT", "Password too short"⟩
  else .ok ()

/-- validation.js validateAccessLevel: a zero user id or zero minimum level is
a falsy-argument programming error (plain object thrown), an unknown user id
is also a plain throw, and a level below the minimum is a 403
UNAUTHORIZED_ACCESS_LEVEL RouteError. -/
def validateAccessLevel (db : List UserRec) (minAccessLevel : Int)
    (userId : Nat) : Except ThrownError Unit :=
  if userId = 0 ∨ minAccessLevel = 0 then .error .other
  else
    match lookupById db userId with
    | none => .error .other
    | some u =>
      if u.access_level < minAccessLevel then
        .error (.route ⟨403, "UNAUTHORIZED_ACCESS_LEVEL",
          "The user does not have privileges to this resource"⟩)
      else .ok ()

/-- The login failure response shared by the unknown-username and
wrong-password branches of auth.login. -/
def incorrectUserPass : RouteError :=
  ⟨400, "INCORRECT_USERNAME_PASSWORD", "Username and/or password was incorrect"⟩

/-- Successful login effects: the refresh claim signed for the user and the
access claim minted by createAccessToken (none when the query faulted and
createAccessToken returned null, in which case a null cookie is set). -/
structure LoginOk where
  refreshClaim : RefreshClaim
  accessClaim : Option AccessClaim
deriving Repr, DecidableEq

/-- auth.js login: validate the inputs, look the username up, compare the
password against the stored bcrypt hash (pwVerify is the black-box
bcrypt.compareSync), and on success sign a refresh token and mint an access
token.  Both the unknown-username and the wrong-password branches throw the
same RouteError.  A TypeError escaping createAccessToken is not a RouteError
and surfaces as the 500 wire response. -/
def login (env : Env) (pwVerify : String → String → Bool) (fault : Bool)
    (db : List UserRec) (username password : String) (now : Nat) :
    Except RouteError LoginOk :=
  match validateUsername env username with
  | .error e => .error e
  | .ok _ =>
    match validatePassword env password with
    | .error e => .error e
    | .ok _ =>
      match lookupByUsername db username with
      | none => .error incorrectUserPass
      | some u =>
        if pwVerify password u.password_hash then
          match createAccessToken env fault db u.id now with
          | .threw => .error ⟨500, "INTERNAL_SERVER_ERROR", "Unable to service request"⟩
          | .nullToken => .ok ⟨⟨u.id, now + env.refreshTtl⟩, none⟩
          | .token c => .ok ⟨⟨u.id, now + env.refreshTtl⟩, some c⟩
        else .error incorrectUserPass

/-- Response body of GET /auth/info. -/
structure InfoBody where
  id : Nat
  username : String
  accessLevel : Int
  expTimestamp : Nat
deriving Repr, DecidableEq

/-- auth.js getInfo: with no identity, clear both cookies and throw 401
NO_USER; otherwise return the identity fields.  The Bool records whether the
cookies were cleared. -/
def getInfo (userInfo : Option AccessClaim) :
    Except RouteError InfoBody × Bool :=
  match userInfo with
  | none => (.error ⟨401, "NO_USER", "The requesting user is not logged-in"⟩, true)
  | some u => (.ok ⟨u.id, u.username, u.access_level, u.exp⟩, false)

/-- topic.js addTopic: the admin gate is a hardcoded access_level < 3 check
throwing 403 UNAUTHORIZED_ACCESS, then the topic name is required. -/
def addTopic (me : AccessClaim) (topicName : String) :
    Except RouteError Unit :=
  if me.access_level < 3 then
    .error ⟨403, "UNAUTHORIZED_ACCESS", "Only admin-level users or above can add topics"⟩
  else if topicName = "" then
    .error ⟨400, "NO_TOPIC_NAME", "No topic name was provided in the body request"⟩
  else .ok ()

/-- user.js removeUser: admin gate (403 UNAUTHORIZED), target existence check,
then DELETE. -/
def removeUser (env : Env) (db : List UserRec) (me : AccessClaim)
    (userId : Nat) : Except RouteError (List UserRec) :=
  if me.access_level < env.adminLevel then
    .error ⟨403, "UNAUTHORIZED", "Only admin-level or above users can remove users"⟩
  else
    match lookupById db userId with
    | none => .error ⟨400, "USER_ID_NOT_FOUND", "User with the given ID not found"⟩
    | some _ => .ok (db.filter (fun u => u.id != userId))

/-- user.js changeUsername: after input validation and the target existence
query, the authorization block only runs when the target is another user: the
actor must clear the admin gate and have a level strictly above the target.
Both rejections use code UNAUTHORIZED with status 403. -/
def changeUsername (env : Env) (db : List UserRec) (me : AccessClaim)
    (userId : Nat) (username : String) : Except RouteError (List UserRec) :=
  match validateUsername env username with
  | .error e => .error e
  | .ok _ =>
    match lookupById db userId with
    | none => .error ⟨400, "USER_ID_NOT_FOUND", "User with the given ID not found"⟩
    | some target =>
      if userId ≠ me.id then
        if me.access_level < env.adminLevel then
          .error ⟨403, "UNAUTHORIZED",
            "Moderator-level users and below can only change their own usernames"⟩
        else if me.access_level ≤ target.access_level then
          .error ⟨403, "UNAUTHORIZED",
            "The target user access level must be less than the changing user"⟩
        else .ok (updateUsername db userId username)
      else .ok (updateUsername db userId username)

/-- user.js changeAccessLevel: admin gate (403 UNAUTHORIZED), falsy check on
the body parameter (NO_ACCESS_LEVEL), range check 1..ACCESS_LEVEL_DEVELOPER
(INVALID_ACCESS_LEVEL), non-escalation check against the requester level (403
UNAUTHORIZED_ACCESS_LEVEL), target existence, then UPDATE.  The target row
current access_level is never read. -/
def changeAccessLevel (env : Env) (db : List UserRec) (me : AccessClaim)
    (userId : Nat) (accessLevel : Option Int) :
    Except RouteError (List UserRec) :=
  if me.access_level < env.adminLevel then
    .error ⟨403, "UNAUTHORIZED", "Only admin-level or above users can update access levels"⟩
  else
    match accessLevel with
    | none => .error ⟨400, "NO_ACCESS_LEVEL", "No access level was provided in the body request"⟩
    | some lvl =>
      if lvl = 0 then
        .error ⟨400, "NO_ACCESS_LEVEL", "No access level was provided in the body request"⟩
      else if lvl < 1 ∨ env.developerLevel < lvl then
        .error ⟨400, "INVALID_ACCESS_LEVEL",
          "The provided access level value must be an int and must be a valid access value"⟩
      else if me.access_level < lvl then
        .error ⟨403, "UNAUTHORIZED_ACCESS_LEVEL",
          "The provided access level cannot exceed the requester access level"⟩
      else
        match lookupById db userId with
        | none => .error ⟨400, "USER_ID_NOT_FOUND", "User with the given ID not found"⟩
        | some _ => .ok (updateLevel db userId lvl)

/-- A quibble row as far as removeQuibble observes it. -/
structure Quibble where
  id : Nat
  content : Option String
deriving Repr, DecidableEq

/-- quibble.js removeQuibble: moderator gate (403 UNAUTHORIZED), existence
check, already-deleted check, then the content is nulled. -/
def removeQuibble (env : Env) (quibbles : List Quibble) (me : AccessClaim)
    (quibbleId : Nat) : Except RouteError (List Quibble) :=
  if me.access_level < env.moderatorLevel then
    .error ⟨403, "UNAUTHORIZED", "Only moderator-level or above users can remove quibbles"⟩
  else
    match quibbles.find? (fun q => q.id == quibbleId) with
    | none => .error ⟨400, "QUIBBLE_ID_NOT_FOUND", "Quibble with the given ID not found"⟩
    | some q =>
      match q.content with
      | none => .error ⟨400, "QUIBBLE_ALREADY_DELETED", "The quibble was already deleted"⟩
      | some _ =>
        .ok (quibbles.map (fun q2 =>
          if q2.id == quibbleId then { q2 with content := none } else q2))

/-- Cookie options applied by cookiemanagement.js: the httpOnly flag and the
expires instant.  Both setRefreshToken and setAccessToken compute expires as
the current time plus the single configured COOKIE_EXPIRY_TIME_SECONDS value
(the source adds the raw env value to Date.now(); the addition is modelled
numerically, which is the reading most favorable to the claim). -/
structure CookieOpts where
  httpOnly : Bool
  expires : Nat
deriving Repr, DecidableEq

/-- cookiemanagement.js setRefreshToken cookie options. -/
def setRefreshTokenCookie (env : Env) (now : Nat) : CookieOpts :=
  ⟨true, now + env.cookieExpirySeconds⟩

/-- cookiemanagement.js setAccessToken cookie options. -/
def setAccessTokenCookie (env : Env) (now : Nat) : CookieOpts :=
  ⟨false, now + env.cookieExpirySeconds⟩

/-- The error codes observed on authorization rejections (HTTP status 401 or
403) across the embedded routes and middleware. -/
def authCodes : List String :=
  ["USER_NOT_LOGGED_IN", "USER_LOGIN_ENDED", "UNAUTHORIZED",
   "UNAUTHORIZED_ACCESS_LEVEL", "UNAUTHORIZED_ACCESS", "NO_USER"]

/-- A route operation result only rejects with authorization-class statuses
401 and 403 through codes in authCodes, and the wire response preserves the
status, code and message. -/
def rejectsWithinAuthCodes {α : Type} (r : Except RouteError α) : Prop :=
  ∀ e : RouteError, r = Except.error e → (e.status = 401 ∨ e.status = 403) →
    e.code ∈ authCodes ∧ errorHandler (.route e) = ⟨e.status, e.code, e.message⟩

/-- A middleware run only rejects with status 401 through codes in authCodes. -/
def mwRejectsWithinAuthCodes (r : MwResult) : Prop :=
  ∀ s c m, r.outcome = .reject s c m → s = 401 ∧ c ∈ authCodes

/-- Every jwtVerifyStrict run with a positive access TTL either succeeds on
the hot path, succeeds by renewal with the fresh claim built from the store
row, or lands in the shared catch block with no token set; in the last two
cases access verification has failed. -/
lemma jwtVerifyStrict_shape (env : Env) (fault : Bool) (db : List UserRec)
    (now : Nat) (req : Request) (hT : 0 < env.accessTtl) :
    (∃ c, verifyAccessJwt req.access_token env.jwtSecret now = .ok c ∧
       jwtVerifyStrict env fault db now req =
         ⟨.next (some c), false, none, 0, 0, 1⟩) ∨
    (∃ e r u, verifyAccessJwt req.access_token env.jwtSecret now = .error e ∧
       verifyRefreshJwt req.refresh_token env.jwtSecret now = .ok r ∧
       fault = false ∧ lookupById db r.id = some u ∧
       jwtVerifyStrict env fault db now req =
         ⟨.next (some ⟨u.id, u.username, u.access_level, now + env.accessTtl⟩),
          false, some ⟨u.id, u.username, u.access_level, now + env.accessTtl⟩,
          1, 1, 1⟩) ∨
    (∃ e l, verifyAccessJwt req.access_token env.jwtSecret now = .error e ∧
       jwtVerifyStrict env fault db now req = jwtStrictCatch req none l 1) := by
  cases hA : verifyAccessJwt req.access_token env.jwtSecret now with
  | ok c =>
    exact Or.inl ⟨c, rfl, by simp only [jwtVerifyStrict, hA]⟩
  | error eA =>
    cases hR : verifyRefreshJwt req.refresh_token env.jwtSecret now with
    | error eR =>
      exact Or.inr (Or.inr ⟨eA, 0, rfl, by simp only [jwtVerifyStrict, hA, hR]⟩)
    | ok r =>
      cases fault with
      | true =>
        refine Or.inr (Or.inr ⟨eA, 1, rfl, ?_⟩)
        simp only [jwtVerifyStrict, hA, hR, createAccessToken, if_pos]
      | false =>
        cases hU : lookupById db r.id with
        | none =>
          refine Or.inr (Or.inr ⟨eA, 1, rfl, ?_⟩)
          simp only [jwtVerifyStrict, hA, hR, createAccessToken, hU,
            Bool.false_eq_true, if_false]
        | some u =>
          refine Or.inr (Or.inl ⟨eA, r, u, rfl, rfl, rfl, hU, ?_⟩)
          have hexp : ¬ (now + env.accessTtl ≤ now) := by omega
          have hv : verifyAccessJwt
              (some ⟨env.jwtSecret,
                ⟨u.id, u.username, u.access_level, now + env.accessTtl⟩⟩)
              env.jwtSecret now =
              .ok ⟨u.id, u.username, u.access_level, now + env.accessTtl⟩ := by
            simp [verifyAccessJwt, hexp]
          simp only [jwtVerifyStrict, hA, hR, createAccessToken,
            Bool.false_eq_true, if_false, hU, hv]

/-- Claim C1: in Strict mode, when neither the Access Claim nor the Refresh
Claim yields an identity, the request is rejected with HTTP 401 before the
handler runs: with code USER_LOGIN_ENDED and both cookies cleared when a
refresh_token cookie was present, and with code USER_NOT_LOGGED_IN (nothing
cleared) when it was absent. -/
theorem c1_strict_failure_terminals (env : Env) (fault : Bool)
    (db : List UserRec) (now : Nat) (req : Request)
    (hfail : (jwtVerifyStrict env fault db now req).identity = none) :
    (req.refresh_token.isSome = true →
       (jwtVerifyStrict env fault db now req).outcome =
         .reject 401 "USER_LOGIN_ENDED" "The user login period has ended" ∧
       (jwtVerifyStrict env fault db now req).cleared = true) ∧
    (req.refresh_token.isSome = false →
       (jwtVerifyStrict env fault db now req).outcome =
         .reject 401 "USER_NOT_LOGGED_IN" "The user is not logged-in" ∧
       (jwtVerifyStrict env fault db now req).cleared = false) ∧
    (jwtVerifyStrict env fault db now req).nextCalls = 0 := by
  have key : ∃ st l, jwtVerifyStrict env fault db now req =
      jwtStrictCatch req st l 1 := by
    cases hA : verifyAccessJwt req.access_token env.jwtSecret now with
    | ok c =>
      simp [jwtVerifyStrict, hA, MwResult.identity] at hfail
    | error eA =>
      cases hR : verifyRefreshJwt req.refresh_token env.jwtSecret now with
      | error eR =>
        exact ⟨none, 0, by simp only [jwtVerifyStrict, hA, hR]⟩
      | ok r =>
        cases hC : createAccessToken env fault db r.id now with
        | nullToken =>
          exact ⟨none, 1, by simp only [jwtVerifyStrict, hA, hR, hC]⟩
        | threw =>
          exact ⟨none, 1, by simp only [jwtVerifyStrict, hA, hR, hC]⟩
        | token c =>
          cases hV : verifyAccessJwt (some ⟨env.jwtSecret, c⟩) env.jwtSecret now with
          | ok c2 =>
            simp [jwtVerifyStrict, hA, hR, hC, hV, MwResult.identity] at hfail
          | error e2 =>
            exact ⟨some c, 1, by simp only [jwtVerifyStrict, hA, hR, hC, hV]⟩
  obtain ⟨st, l, hk⟩ := key
  rw [hk]
  by_cases hS : req.refresh_token.isSome <;>
    simp [jwtStrictCatch, hS]

/-- Claim C2: in Strict mode, an invalid or expired Access Claim together
with a valid Refresh Claim whose subject exists in the store terminates
AUTHENTICATED with a freshly minted Access Claim whose id, username and
access level are read from the store row at renewal time, and that claim is
both attached as the identity and handed to setAccessToken. -/
theorem c2_strict_renewal_uses_store (env : Env) (fault : Bool)
    (db : List UserRec) (now : Nat) (req : Request) (aerr : JwtError)
    (r : RefreshClaim) (u : UserRec)
    (hA : verifyAccessJwt req.access_token env.jwtSecret now = .error aerr)
    (hR : verifyRefreshJwt req.refresh_token env.jwtSecret now = .ok r)
    (hU : lookupById db r.id = some u)
    (hF : fault = false)
    (hT : 0 < env.accessTtl) :
    jwtVerifyStrict env fault db now req =
      { outcome := .next (some ⟨u.id, u.username, u.access_level,
          now + env.accessTtl⟩)
        cleared := false
        setTok := some ⟨u.id, u.username, u.access_level, now + env.accessTtl⟩
        storeLookups := 1
        refreshChecks := 1
        nextCalls := 1 } := by
  subst hF
  have hexp : ¬ (now + env.accessTtl ≤ now) := by omega
  simp only [jwtVerifyStrict, hA, hR, createAccessToken, Bool.false_eq_true,
    if_false, hU]
  simp [verifyAccessJwt, hexp]

/-- Concrete configuration used by the witnesses: secret 99, access TTL 600,
refresh TTL 604800, cookie lifetime 3600, levels Admin 3 / Moderator 2 /
Developer 4, username max 32, password length 8..64. -/
def envA : Env :=
  ⟨99, 600, 604800, 3600, 3, 2, 4, 32, 8, 64⟩

/-- Concrete user table for witnesses: alice is an Admin (3), bob a User (1),
dev a Developer (4). -/
def dbA : List UserRec :=
  [⟨1, "alice", "hashA", 3⟩, ⟨2, "bob", "hashB", 1⟩, ⟨42, "dev", "hashD", 4⟩]

/-- Request carrying an expired access claim (stale level 1) and a valid
refresh claim for user 1. -/
def reqC2 : Request :=
  ⟨some ⟨99, ⟨1, "alice", 1, 5⟩⟩, some ⟨99, ⟨1, 10000⟩⟩⟩

theorem c2_strict_renewal_witness :
    jwtVerifyStrict envA false dbA 10 reqC2 =
      { outcome := .next (some ⟨1, "alice", 3, 610⟩)
        cleared := false
        setTok := some ⟨1, "alice", 3, 610⟩
        storeLookups := 1
        refreshChecks := 1
        nextCalls := 1 } :=
  c2_strict_renewal_uses_store envA false dbA 10 reqC2 .expired ⟨1, 10000⟩
    ⟨1, "alice", "hashA", 3⟩ rfl rfl rfl rfl (by decide)

/-- Request with no access cookie and an expired refresh cookie. -/
def reqC1 : Request :=
  ⟨none, some ⟨99, ⟨1, 5⟩⟩⟩

theorem c1_strict_failure_witness :
    (jwtVerifyStrict envA false dbA 10 reqC1).identity = none ∧
    (jwtVerifyStrict envA false dbA 10 reqC1).outcome =
      .reject 401 "USER_LOGIN_ENDED" "The user login period has ended" ∧
    (jwtVerifyStrict envA false dbA 10 reqC1).cleared = true :=
  ⟨by decide,
   ((c1_strict_failure_terminals envA false dbA 10 reqC1 (by decide)).1
     (by decide)).1,
   ((c1_strict_failure_terminals envA false dbA 10 reqC1 (by decide)).1
     (by decide)).2⟩

/-- Claim C3: with a positive access TTL, a valid unexpired Access Claim
makes Strict verification terminate with that identity, no store lookup, no
refresh verification and no credential update; setAccessToken fires exactly
on the renewal path (where it hands over the attached identity after one
store lookup) and never on the pure-success or pure-failure paths; and any
refresh verification or store lookup is preceded by a failed Access Claim
verification. -/
theorem c3_strict_ordering_and_renewal_effect (env : Env) (fault : Bool)
    (db : List UserRec) (now : Nat) (req : Request) (hT : 0 < env.accessTtl) :
    (∀ c, verifyAccessJwt req.access_token env.jwtSecret now = .ok c →
       jwtVerifyStrict env fault db now req =
         ⟨.next (some c), false, none, 0, 0, 1⟩) ∧
    (∀ c, (jwtVerifyStrict env fault db now req).setTok = some c →
       (jwtVerifyStrict env fault db now req).outcome = .next (some c) ∧
       (jwtVerifyStrict env fault db now req).storeLookups = 1) ∧
    ((jwtVerifyStrict env fault db now req).identity = none →
       (jwtVerifyStrict env fault db now req).setTok = none) ∧
    ((jwtVerifyStrict env fault db now req).storeLookups ≠ 0 ∨
       (jwtVerifyStrict env fault db now req).refreshChecks ≠ 0 →
       ∃ e, verifyAccessJwt req.access_token env.jwtSecret now = .error e) := by
  rcases jwtVerifyStrict_shape env fault db now req hT with
    ⟨c, hA, hres⟩ | ⟨e, r, u, hA, hR, hF, hU, hres⟩ | ⟨e, l, hA, hres⟩
  · refine ⟨?_, ?_, ?_, ?_⟩
    · intro c2 hA2
      rw [hA] at hA2
      cases hA2
      exact hres
    · intro c2 h2
      rw [hres] at h2
      simp at h2
    · intro _
      rw [hres]
    · intro h
      rw [hres] at h
      simp at h
  · refine ⟨?_, ?_, ?_, ?_⟩
    · intro c2 hA2
      rw [hA] at hA2
      cases hA2
    · intro c2 h2
      rw [hres] at h2
      simp only [Option.some.injEq] at h2
      rw [hres, ← h2]
      exact ⟨rfl, rfl⟩
    · intro h
      rw [hres] at h
      simp [MwResult.identity] at h
    · intro _
      exact ⟨e, hA⟩
  · refine ⟨?_, ?_, ?_, ?_⟩
    · intro c2 hA2
      rw [hA] at hA2
      cases hA2
    · intro c2 h2
      rw [hres] at h2
      by_cases hS : req.refresh_token.isSome <;>
        simp [jwtStrictCatch, hS] at h2
    · intro _
      rw [hres]
      by_cases hS : req.refresh_token.isSome <;>
        simp [jwtStrictCatch, hS]
    · intro _
      exact ⟨e, hA⟩

/-- Hot-path request: a valid unexpired access claim and no refresh cookie. -/
def reqC3 : Request :=
  ⟨some ⟨99, ⟨1, "alice", 3, 10000⟩⟩, none⟩

theorem c3_strict_ordering_witness :
    jwtVerifyStrict envA false dbA 10 reqC3 =
      ⟨.next (some ⟨1, "alice", 3, 10000⟩), false, none, 0, 0, 1⟩ :=
  (c3_strict_ordering_and_renewal_effect envA false dbA 10 reqC3
    (by decide)).1 ⟨1, "alice", 3, 10000⟩ rfl

/-- Claim C4: Soft-mode verification never rejects: for every credential
state the handler is invoked exactly once, with an identity only when one was
established, and the credential carriers are cleared only when a
refresh_token cookie was present but no identity resulted. -/
theorem c4_soft_always_forwards (env : Env) (fault : Bool) (db : List UserRec)
    (now : Nat) (req : Request) :
    (∃ i, (jwtVerifySoft env fault db now req).outcome = .next i) ∧
    (jwtVerifySoft env fault db now req).nextCalls = 1 ∧
    ((jwtVerifySoft env fault db now req).cleared = true →
       req.refresh_token.isSome = true ∧
       (jwtVerifySoft env fault db now req).identity = none) := by
  cases hA : verifyAccessJwt req.access_token env.jwtSecret now with
  | ok c =>
    simp only [jwtVerifySoft, hA]
    exact ⟨⟨some c, rfl⟩, trivial, by simp⟩
  | error eA =>
    cases hR : verifyRefreshJwt req.refresh_token env.jwtSecret now with
    | error eR =>
      simp only [jwtVerifySoft, hA, hR]
      exact ⟨⟨none, rfl⟩, trivial, fun h => ⟨h, rfl⟩⟩
    | ok r =>
      cases hC : createAccessToken env fault db r.id now with
      | nullToken =>
        simp only [jwtVerifySoft, hA, hR, hC]
        exact ⟨⟨none, rfl⟩, trivial, by simp⟩
      | threw =>
        simp only [jwtVerifySoft, hA, hR, hC]
        exact ⟨⟨none, rfl⟩, trivial, fun h => ⟨h, rfl⟩⟩
      | token c =>
        cases hV : verifyAccessJwt (some ⟨env.jwtSecret, c⟩) env.jwtSecret now with
        | ok c2 =>
          simp only [jwtVerifySoft, hA, hR, hC, hV]
          exact ⟨⟨some c2, rfl⟩, trivial, by simp⟩
        | error e2 =>
          simp only [jwtVerifySoft, hA, hR, hC, hV]
          exact ⟨⟨none, rfl⟩, trivial, fun h => ⟨h, rfl⟩⟩

theorem c4_soft_always_forwards_witness :
    (jwtVerifySoft envA false dbA 10 reqC1).nextCalls = 1 ∧
    reqC1.refresh_token.isSome = true ∧
    (jwtVerifySoft envA false dbA 10 reqC1).identity = none :=
  ⟨(c4_soft_always_forwards envA false dbA 10 reqC1).2.1,
   (c4_soft_always_forwards envA false dbA 10 reqC1).2.2 (by decide)⟩

/-- Claim C5 counterexample: an actor with access level 2 asking to set user
2 to level 3 is rejected by the admin minimum-level gate with error code
UNAUTHORIZED, not UNAUTHORIZED_ACCESS_LEVEL as the claim states. -/
theorem c5_counterexample :
    changeAccessLevel envA dbA ⟨7, "mod", 2, 10000⟩ 2 (some 3) =
      .error ⟨403, "UNAUTHORIZED",
        "Only admin-level or above users can update access levels"⟩ ∧
    "UNAUTHORIZED" ≠ "UNAUTHORIZED_ACCESS_LEVEL" :=
  ⟨rfl, by decide⟩

/-- Claim C5 (amended): a level-2 actor setting another user to level 3 is
rejected, but by the admin minimum-level gate with code UNAUTHORIZED; the
non-escalation check is applied in addition to that gate: an actor who passes
the gate but requests a valid level above their own is rejected with
UNAUTHORIZED_ACCESS_LEVEL. -/
theorem c5_access_level_gates_amended (env : Env) (db : List UserRec)
    (me : AccessClaim) (userId : Nat) (lvl : Int)
    (hadmin : env.adminLevel = 3) (hdev : env.developerLevel = 4) :
    (me.access_level = 2 →
       changeAccessLevel env db me userId (some lvl) =
         .error ⟨403, "UNAUTHORIZED",
           "Only admin-level or above users can update access levels"⟩) ∧
    (3 ≤ me.access_level → 1 ≤ lvl → lvl ≤ 4 → me.access_level < lvl →
       changeAccessLevel env db me userId (some lvl) =
         .error ⟨403, "UNAUTHORIZED_ACCESS_LEVEL",
           "The provided access level cannot exceed the requester access level"⟩) := by
  constructor
  · intro h2
    have hlt : me.access_level < env.adminLevel := by omega
    simp [changeAccessLevel, hlt]
  · intro h3 h1 h4 hesc
    have hg : ¬ me.access_level < env.adminLevel := by omega
    have h0 : ¬ lvl = 0 := by omega
    have hr : ¬ (lvl < 1 ∨ env.developerLevel < lvl) := by
      rw [hdev]; omega
    simp [changeAccessLevel, hg, h0, hr, hesc]

theorem c5_access_level_gates_witness :
    changeAccessLevel envA dbA ⟨7, "mod", 2, 10000⟩ 2 (some 3) =
      .error ⟨403, "UNAUTHORIZED",
        "Only admin-level or above users can update access levels"⟩ ∧
    changeAccessLevel envA dbA ⟨1, "alice", 3, 10000⟩ 2 (some 4) =
      .error ⟨403, "UNAUTHORIZED_ACCESS_LEVEL",
        "The provided access level cannot exceed the requester access level"⟩ :=
  ⟨(c5_access_level_gates_amended envA dbA ⟨7, "mod", 2, 10000⟩ 2 3 rfl rfl).1
     rfl,
   (c5_access_level_gates_amended envA dbA ⟨1, "alice", 3, 10000⟩ 2 4 rfl
     rfl).2 (by norm_num) (by norm_num) (by norm_num) (by norm_num)⟩

/-- Claim C6: for an existing target user and a valid new username, the
change-username operation succeeds unconditionally when the actor is the
target (any access level), succeeds on another user exactly when the actor
clears the admin threshold and strictly outranks the target, and always
rejects a level-1 actor targeting another user with code UNAUTHORIZED. -/
theorem c6_change_username_policy (env : Env) (db : List UserRec)
    (me : AccessClaim) (userId : Nat) (username : String) (target : UserRec)
    (hval : validateUsername env username = .ok ())
    (hU : lookupById db userId = some target) :
    (userId = me.id →
       changeUsername env db me userId username =
         .ok (updateUsername db userId username)) ∧
    (userId ≠ me.id →
       (changeUsername env db me userId username =
         .ok (updateUsername db userId username) ↔
        env.adminLevel ≤ me.access_level ∧
        target.access_level < me.access_level)) ∧
    (userId ≠ me.id → me.access_level = 1 → env.adminLevel = 3 →
       changeUsername env db me userId username =
         .error ⟨403, "UNAUTHORIZED",
           "Moderator-level users and below can only change their own usernames"⟩) := by
  refine ⟨?_, ?_, ?_⟩
  · intro h
    subst h
    simp [changeUsername, hval, hU]
  · intro h
    by_cases hga : me.access_level < env.adminLevel
    · simp [changeUsername, hval, hU, h, hga]
      try omega
    · by_cases hgt : me.access_level ≤ target.access_level
      · simp [changeUsername, hval, hU, h, hga, hgt]
        try omega
      · simp [changeUsername, hval, hU, h, hga, hgt]
        try omega
  · intro h h1 hadm
    have hga : me.access_level < env.adminLevel := by omega
    simp [changeUsername, hval, hU, h, hga]

theorem c6_change_username_witness :
    changeUsername envA dbA ⟨2, "bob", 1, 10000⟩ 2 "bobby" =
      .ok (updateUsername dbA 2 "bobby") ∧
    changeUsername envA dbA ⟨2, "bob", 1, 10000⟩ 1 "alice2" =
      .error ⟨403, "UNAUTHORIZED",
        "Moderator-level users and below can only change their own usernames"⟩ :=
  ⟨(c6_change_username_policy envA dbA ⟨2, "bob", 1, 10000⟩ 2 "bobby"
      ⟨2, "bob", "hashB", 1⟩ rfl rfl).1 rfl,
   (c6_change_username_policy envA dbA ⟨2, "bob", 1, 10000⟩ 1 "alice2"
      ⟨1, "alice", "hashA", 3⟩ rfl rfl).2.2 (by decide) rfl rfl⟩

/-- Claim C9: changeAccessLevel never reads the target row access level: for
any actor passing the admin gate and any existing target, the update succeeds
whenever the requested level is a valid level at most the actor level; the
target current level is a free variable of the theorem and never constrained,
so a target outranking the actor changes nothing. -/
theorem c9_change_access_level_ignores_target_level (env : Env)
    (db : List UserRec) (me : AccessClaim) (userId : Nat) (lvl : Int)
    (target : UserRec)
    (hgate : env.adminLevel ≤ me.access_level)
    (h1 : 1 ≤ lvl) (h2 : lvl ≤ env.developerLevel)
    (h3 : lvl ≤ me.access_level)
    (hU : lookupById db userId = some target) :
    changeAccessLevel env db me userId (some lvl) =
      .ok (updateLevel db userId lvl) := by
  have hg : ¬ me.access_level < env.adminLevel := by omega
  have h0 : ¬ lvl = 0 := by omega
  have hr : ¬ (lvl < 1 ∨ env.developerLevel < lvl) := by omega
  have hesc : ¬ me.access_level < lvl := by omega
  simp [changeAccessLevel, hg, h0, hr, hesc, hU]

theorem c9_change_access_level_witness :
    changeAccessLevel envA dbA ⟨1, "alice", 3, 10000⟩ 42 (some 2) =
      .ok (updateLevel dbA 42 2) :=
  c9_change_access_level_ignores_target_level envA dbA ⟨1, "alice", 3, 10000⟩
    42 2 ⟨42, "dev", "hashD", 4⟩ (by decide) (by decide) (by decide)
    (by decide) rfl

/-- Claim C10: for well-formed credentials, a login attempt with an unknown
username and a login attempt with a known username but wrong password produce
the identical failure: the same RouteError with status 400, code
INCORRECT_USERNAME_PASSWORD and the same message, so the response does not
reveal whether the username exists. -/
theorem c10_login_no_username_oracle (env : Env)
    (pwVf : String → String → Bool) (fault : Bool) (db : List UserRec)
    (u1 p1 u2 p2 : String) (now1 now2 : Nat) (rec : UserRec)
    (hv1 : validateUsername env u1 = .ok ())
    (hp1 : validatePassword env p1 = .ok ())
    (hv2 : validateUsername env u2 = .ok ())
    (hp2 : validatePassword env p2 = .ok ())
    (hn : lookupByUsername db u1 = none)
    (hs : lookupByUsername db u2 = some rec)
    (hw : pwVf p2 rec.password_hash = false) :
    login env pwVf fault db u1 p1 now1 = .error incorrectUserPass ∧
    login env pwVf fault db u2 p2 now2 = .error incorrectUserPass ∧
    incorrectUserPass.status = 400 ∧
    incorrectUserPass.code = "INCORRECT_USERNAME_PASSWORD" := by
  refine ⟨?_, ?_, rfl, rfl⟩
  · simp [login, hv1, hp1, hn]
  · simp [login, hv2, hp2, hs, hw]

/-- bcrypt.compareSync stand-in that rejects every password, used to realize
a wrong-password attempt concretely. -/
def pwVfNone : String → String → Bool := fun _ _ => false

theorem c10_login_no_username_witness :
    login envA pwVfNone false dbA "carol" "password123" 0 =
      .error incorrectUserPass ∧
    login envA pwVfNone false dbA "alice" "password123" 0 =
      .error incorrectUserPass :=
  ⟨(c10_login_no_username_oracle envA pwVfNone false dbA "carol"
      "password123" "alice" "password123" 0 0 ⟨1, "alice", "hashA", 3⟩ rfl rfl
      rfl rfl rfl rfl rfl).1,
   (c10_login_no_username_oracle envA pwVfNone false dbA "carol"
      "password123" "alice" "password123" 0 0 ⟨1, "alice", "hashA", 3⟩ rfl rfl
      rfl rfl rfl rfl rfl).2.1⟩

/-- Claim C8 counterexample: with access TTL 600 and cookie lifetime 3600, a
token minted at time 0 embeds expiry 600 while the access_token cookie set at
time 0 expires at 3600 — the cookie expiry does not match the embedded claim
expiry. -/
theorem c8_counterexample :
    createAccessToken envA false dbA 1 0 = .token ⟨1, "alice", 3, 600⟩ ∧
    (setAccessTokenCookie envA 0).expires = 3600 ∧
    (3600 : Nat) ≠ 600 :=
  ⟨rfl, rfl, by decide⟩

/-- Claim C8 (amended): whenever an access_token or refresh_token cookie is
set, its expiry is the current time plus the single configured
COOKIE_EXPIRY_TIME_SECONDS value for both cookies, independent of the expiry
embedded in the claim each cookie carries; only the refresh cookie is marked
httpOnly. -/
theorem c8_cookie_expiry_amended (env : Env) (now : Nat) :
    setAccessTokenCookie env now = ⟨false, now + env.cookieExpirySeconds⟩ ∧
    setRefreshTokenCookie env now = ⟨true, now + env.cookieExpirySeconds⟩ :=
  ⟨rfl, rfl⟩

theorem c8_cookie_expiry_witness :
    setAccessTokenCookie envA 0 = ⟨false, 3600⟩ ∧
    setRefreshTokenCookie envA 0 = ⟨true, 3600⟩ :=
  ⟨(c8_cookie_expiry_amended envA 0).1, (c8_cookie_expiry_amended envA 0).2⟩

/-- Any outcome of the strict catch block is a 401 rejection whose code is in
authCodes. -/
lemma jwtStrictCatch_reject (req : Request) (st : Option AccessClaim)
    (l k : Nat) (s : Nat) (c m : String)
    (h : (jwtStrictCatch req st l k).outcome = .reject s c m) :
    s = 401 ∧ c ∈ authCodes := by
  unfold jwtStrictCatch at h
  by_cases hS : req.refresh_token.isSome <;>
    simp only [hS, if_true, if_false, Bool.false_eq_true, MwOutcome.reject.injEq] at h <;>
    obtain ⟨h1, h2, h3⟩ := h <;>
    subst h1 <;> subst h2 <;>
    exact ⟨rfl, by decide⟩

/-- Every strict middleware run either reaches next() or is an instance of
the shared catch block. -/
lemma jwtVerifyStrict_next_or_catch (env : Env) (fault : Bool)
    (db : List UserRec) (now : Nat) (req : Request) :
    (∃ i, (jwtVerifyStrict env fault db now req).outcome = .next i) ∨
    ∃ st l, jwtVerifyStrict env fault db now req = jwtStrictCatch req st l 1 := by
  cases hA : verifyAccessJwt req.access_token env.jwtSecret now with
  | ok c => exact Or.inl ⟨some c, by simp only [jwtVerifyStrict, hA]⟩
  | error eA =>
    cases hR : verifyRefreshJwt req.refresh_token env.jwtSecret now with
    | error eR =>
      exact Or.inr ⟨none, 0, by simp only [jwtVerifyStrict, hA, hR]⟩
    | ok r =>
      cases hC : createAccessToken env fault db r.id now with
      | nullToken =>
        exact Or.inr ⟨none, 1, by simp only [jwtVerifyStrict, hA, hR, hC]⟩
      | threw =>
        exact Or.inr ⟨none, 1, by simp only [jwtVerifyStrict, hA, hR, hC]⟩
      | token c =>
        cases hV : verifyAccessJwt (some ⟨env.jwtSecret, c⟩) env.jwtSecret now with
        | ok c2 =>
          exact Or.inl ⟨some c2, by simp only [jwtVerifyStrict, hA, hR, hC, hV]⟩
        | error e2 =>
          exact Or.inr ⟨some c, 1, by simp only [jwtVerifyStrict, hA, hR, hC, hV]⟩

/-- Every soft middleware run reaches next(). -/
lemma jwtVerifySoft_outcome_next (env : Env) (fault : Bool)
    (db : List UserRec) (now : Nat) (req : Request) :
    ∃ i, (jwtVerifySoft env fault db now req).outcome = .next i := by
  cases hA : verifyAccessJwt req.access_token env.jwtSecret now with
  | ok c => exact ⟨some c, by simp only [jwtVerifySoft, hA]⟩
  | error eA =>
    cases hR : verifyRefreshJwt req.refresh_token env.jwtSecret now with
    | error eR => exact ⟨none, by simp only [jwtVerifySoft, hA, hR]⟩
    | ok r =>
      cases hC : createAccessToken env fault db r.id now with
      | nullToken => exact ⟨none, by simp only [jwtVerifySoft, hA, hR, hC]⟩
      | threw => exact ⟨none, by simp only [jwtVerifySoft, hA, hR, hC]⟩
      | token c =>
        cases hV : verifyAccessJwt (some ⟨env.jwtSecret, c⟩) env.jwtSecret now with
        | ok c2 => exact ⟨some c2, by simp only [jwtVerifySoft, hA, hR, hC, hV]⟩
        | error e2 => exact ⟨none, by simp only [jwtVerifySoft, hA, hR, hC, hV]⟩

/-- Every validateUsername failure carries HTTP status 400. -/
lemma validateUsername_error_status (env : Env) (username : String)
    (e : RouteError) (h : validateUsername env username = .error e) :
    e.status = 400 := by
  unfold validateUsername at h
  repeat
    first
      | (injection h with h2; subst h2; rfl)
      | (exact Except.noConfusion h)
      | split at h

/-- Claim C7 counterexample: the topic-creation admin gate rejects a level-2
actor with 403 and error code UNAUTHORIZED_ACCESS, which is not among the
four codes the claim lists. -/
theorem c7_counterexample :
    addTopic ⟨7, "mod", 2, 10000⟩ "Sports" =
      .error ⟨403, "UNAUTHORIZED_ACCESS",
        "Only admin-level users or above can add topics"⟩ ∧
    "UNAUTHORIZED_ACCESS" ∉
      (["USER_NOT_LOGGED_IN", "USER_LOGIN_ENDED", "UNAUTHORIZED",
        "UNAUTHORIZED_ACCESS_LEVEL"] : List String) :=
  ⟨rfl, by decide⟩

/-- Claim C7 (amended): every rejected privileged action across the embedded
routes and middleware is a JSON {error, message} response with HTTP status
401 or 403, and the error code is one of exactly USER_NOT_LOGGED_IN,
USER_LOGIN_ENDED, UNAUTHORIZED, UNAUTHORIZED_ACCESS_LEVEL,
UNAUTHORIZED_ACCESS and NO_USER. -/
theorem c7_auth_wire_contract_amended (env : Env) (fault : Bool)
    (db : List UserRec) (now : Nat) (req : Request) (me : AccessClaim)
    (userInfo : Option AccessClaim) (userId quibbleId : Nat)
    (username topicName : String) (accessLevel : Option Int)
    (quibbles : List Quibble) (minLvl : Int) :
    mwRejectsWithinAuthCodes (jwtVerifyStrict env fault db now req) ∧
    mwRejectsWithinAuthCodes (jwtVerifySoft env fault db now req) ∧
    rejectsWithinAuthCodes (getInfo userInfo).1 ∧
    rejectsWithinAuthCodes (addTopic me topicName) ∧
    rejectsWithinAuthCodes (removeUser env db me userId) ∧
    rejectsWithinAuthCodes (changeUsername env db me userId username) ∧
    rejectsWithinAuthCodes (changeAccessLevel env db me userId accessLevel) ∧
    rejectsWithinAuthCodes (removeQuibble env quibbles me quibbleId) ∧
    (∀ e, validateAccessLevel db minLvl userId = .error (.route e) →
       e.status = 403 ∧ e.code ∈ authCodes) := by
  refine ⟨?_, ?_, ?_, ?_, ?_, ?_, ?_, ?_, ?_⟩
  · intro s c m h
    rcases jwtVerifyStrict_next_or_catch env fault db now req with
      ⟨i, hi⟩ | ⟨st, l, hcat⟩
    · rw [hi] at h
      exact MwOutcome.noConfusion h
    · rw [hcat] at h
      exact jwtStrictCatch_reject req st l 1 s c m h
  · intro s c m h
    obtain ⟨i, hi⟩ := jwtVerifySoft_outcome_next env fault db now req
    rw [hi] at h
    exact MwOutcome.noConfusion h
  · intro e he hst
    refine ⟨?_, rfl⟩
    cases userInfo <;> simp only [getInfo] at he
    · injection he with h
      subst h
      decide
    · exact Except.noConfusion he
  · intro e he hst
    refine ⟨?_, rfl⟩
    unfold addTopic at he
    repeat
      first
        | (injection he with h; subst h;
           first
             | decide
             | (exact absurd hst (by decide)))
        | (exact Except.noConfusion he)
        | split at he
  · intro e he hst
    refine ⟨?_, rfl⟩
    unfold removeUser at he
    repeat
      first
        | (injection he with h; subst h;
           first
             | decide
             | (exact absurd hst (by decide)))
        | (exact Except.noConfusion he)
        | split at he
  · intro e he hst
    refine ⟨?_, rfl⟩
    unfold changeUsername at he
    cases hv : validateUsername env username with
    | error ev =>
      rw [hv] at he
      injection he with h
      subst h
      have h400 := validateUsername_error_status env username _ hv
      rcases hst with h1 | h1 <;> omega
    | ok u =>
      rw [hv] at he
      split at he
      next ev heq => exact Except.noConfusion heq
      next u2 heq =>
        repeat
          first
            | (injection he with h; subst h;
               first
                 | decide
                 | (exact absurd hst (by decide)))
            | (exact Except.noConfusion he)
            | split at he
  · intro e he hst
    refine ⟨?_, rfl⟩
    unfold changeAccessLevel at he
    repeat
      first
        | (injection he with h; subst h;
           first
             | decide
             | (exact absurd hst (by decide)))
        | (exact Except.noConfusion he)
        | split at he
  · intro e he hst
    refine ⟨?_, rfl⟩
    unfold removeQuibble at he
    repeat
      first
        | (injection he with h; subst h;
           first
             | decide
             | (exact absurd hst (by decide)))
        | (exact Except.noConfusion he)
        | split at he
  · intro e he
    unfold validateAccessLevel at he
    repeat
      first
        | (injection he with h; injection h with h2; subst h2;
           exact ⟨rfl, by decide⟩)
        | (injection he with h; exact ThrownError.noConfusion h)
        | (exact Except.noConfusion he)
        | split at he

theorem c7_auth_wire_contract_witness :
    (403 : Nat) = 403 ∧ "UNAUTHORIZED_ACCESS" ∈ authCodes :=
  have h := (c7_auth_wire_contract_amended envA false dbA 10 reqC1
    ⟨7, "mod", 2, 10000⟩ none 2 5 "bobby" "Sports" (some 3) [] 3).2.2.2.1
  have hmem := h ⟨403, "UNAUTHORIZED_ACCESS",
    "Only admin-level users or above can add topics"⟩ rfl (Or.inr rfl)
  ⟨rfl, hmem.1⟩

end FribbleQuibble
